import Mathlib

/-!
Verification of the generic repository / transaction-decoration core of the
attendance-service-api repository, as a shallow embedding in Lean.

Embedded source files:
* `src/app/core/repository/helpers/repository_helpers.py`
* `src/app/core/repository/implementation/generic_repository_impl.py`
* `src/app/core/db/decorator/transactional_decorator.py`
* `src/app/core/db/decorator/query_decorator.py`

Conventions of the embedding:
* Python strings are Lean `String`; character-level work happens on `String.data`
  because the Lean kernel evaluates char lists readily.
* A Python function that may raise returns `Except PyExc _`.
* The database behind the SQLModel session is a list of rows; every repository
  operation additionally reports how many store round trips (SELECT / UPDATE /
  DELETE / flush / refresh calls) it issued, so that "returns without touching
  the store" is a provable statement.
-/

/-- Lower-case an ASCII character, mirroring what `str.lower()` does on the
ASCII fragment that the SQL patterns and error texts use. -/
def lowChar (c : Char) : Char :=
  if 65 ≤ c.toNat ∧ c.toNat ≤ 90 then Char.ofNat (c.toNat + 32) else c

/-- `str.lower()` on the character list of a string. -/
def lowerData (s : String) : List Char := s.data.map lowChar

/-- Lexicographic code-point comparison of char lists, as Python compares
strings in `sorted`. -/
def charListLe : List Char → List Char → Bool
  | [], _ => true
  | _ :: _, [] => false
  | x :: xs, y :: ys =>
    if x.toNat < y.toNat then true
    else if y.toNat < x.toNat then false
    else charListLe xs ys

/-- Python string comparison `a <= b`. -/
def pyStrLe (a b : String) : Bool := charListLe a.data b.data

/-- Does the scrutinee start with the given character sequence? -/
def startsWithSeg : List Char → List Char → Bool
  | _, [] => true
  | [], _ :: _ => false
  | h :: t, p :: ps => h = p && startsWithSeg t ps

/-- Does the haystack contain the needle as a contiguous subsequence? -/
def containsSeg : List Char → List Char → Bool
  | l, needle =>
    match l with
    | [] => needle.isEmpty
    | _ :: t => startsWithSeg l needle || containsSeg t needle

/-- Membership of a string in a string list, by decidable equality. -/
def memStr (k : String) (l : List String) : Bool := l.any (fun v => v = k)

/-- Insert into a sorted list, auxiliary to `insSort`. -/
def insertLe {α : Type} (le : α → α → Bool) (a : α) : List α → List α
  | [] => [a]
  | b :: l => if le a b then a :: b :: l else b :: insertLe le a l

/-- Insertion sort; stands in for Python `sorted` and the store ORDER BY. -/
def insSort {α : Type} (le : α → α → Bool) : List α → List α
  | [] => []
  | a :: l => insertLe le a (insSort le l)

/-- The exception taxonomy the embedded code can raise.  `integrityError`,
`operationalError` and `otherSqlAlchemyError` model SQLAlchemy classes
(`IntegrityError` and `OperationalError` are subclasses of `SQLAlchemyError`);
`invalidFieldExc`, `notFoundExc`, `conflictExc` and `databaseExc` model the
custom `BaseHTTPException` subclasses of `src/app/core/exception`, which
derive from FastAPI `HTTPException` and are not SQLAlchemy errors;
`valueErrorExc` models the Python builtin `ValueError` that the transactional
wrapper itself raises when it cannot resolve a session. -/
inductive PyExc where
  | integrityError
  | operationalError (msg : String)
  | otherSqlAlchemyError
  | invalidFieldExc (message details : String)
  | notFoundExc
  | conflictExc
  | databaseExc (message details instanceRef : String)
  | valueErrorExc (msg : String)
  | otherExc
deriving Repr, DecidableEq

/-- `isinstance(e, SQLAlchemyError)`. -/
def PyExc.isSqlAlchemyError : PyExc → Bool
  | .integrityError => true
  | .operationalError _ => true
  | .otherSqlAlchemyError => true
  | _ => false

/-- A Python entity class as the repository sees it: its `__name__` and the
result of `dir(entity_class)` (all attribute names, private ones included). -/
structure EntityClass where
  className : String
  dirAttrs : List String
deriving Repr, DecidableEq

/-- The `valid_fields` set built inside `validate_fields`: every attribute
name from `dir(entity_class)` that does not start with an underscore.  (The
`hasattr` conjunct of the source comprehension is always true for names
reported by `dir`.) -/
def validFields (E : EntityClass) : List String :=
  E.dirAttrs.filter (fun a => !startsWithSeg a.data "_".data)

/-- `sorted(valid_fields)` — the set is deduplicated and sorted before being
rendered into the error details. -/
def sortedValidFields (E : EntityClass) : List String :=
  insSort pyStrLe (validFields E).dedup

/-- `RepositoryHelpers.validate_fields` (repository_helpers.py lines 18-41):
walks the keys of the incoming field dict in order and raises
`InvalidFieldException` at the first key that is not a declared, non-private
attribute of the entity class; the exception details render the full sorted
valid-field set.  (The source message quotes the field name with apostrophes;
the quotes are dropped here.) -/
def validate_fields (E : EntityClass) (fieldKeys : List String) : Except PyExc Unit :=
  match fieldKeys.find? (fun k => !memStr k (validFields E)) with
  | some k =>
      .error (.invalidFieldExc
        ("Field " ++ k ++ " does not exist in the " ++ E.className ++ " model")
        ("Valid fields are: " ++ String.intercalate ", " (sortedValidFields E)))
  | none => .ok ()

/-- A database row: the entity id plus the values of its named columns. -/
structure Row where
  id : Int
  vals : List (String × Int)
deriving Repr, DecidableEq

/-- `getattr(entity, field)` for a column value (0 when the row does not carry
the column, which faithful callers never rely on). -/
def Row.getVal (r : Row) (field : String) : Int :=
  (((r.vals.find? (fun p => p.1 = field)).map Prod.snd).getD 0)

/-- ORDER BY `entity.id` ascending. -/
def sortById (db : List Row) : List Row :=
  insSort (fun a b => a.id ≤ b.id) db

/-- Result of a repository write operation: the database after the call, the
Python return value, and the number of store round trips issued. -/
structure WriteOut (α : Type) where
  db : List Row
  ret : α
  queries : Nat
deriving Repr, DecidableEq

/-- Result of a repository read operation: the Python return value and the
number of store round trips issued. -/
structure ReadOut (α : Type) where
  ret : α
  queries : Nat
deriving Repr, DecidableEq

/-- `BaseRepository.delete_by_ids` (generic_repository_impl.py lines 276-301):
empty input returns `True` with no query; otherwise one SELECT fetches the
rows whose id is in the list, the distinct set of found ids is compared
against the raw length of the requested list, and only on equality is each
fetched row deleted. -/
def delete_by_ids (db : List Row) (entity_ids : List Int) : WriteOut Bool :=
  if entity_ids.isEmpty then ⟨db, true, 0⟩
  else
    let entities := db.filter (fun r => entity_ids.contains r.id)
    let found_ids := (entities.map Row.id).dedup
    if found_ids.length ≠ entity_ids.length then ⟨db, false, 1⟩
    else ⟨db.filter (fun r => !entity_ids.contains r.id), true, 1 + entities.length⟩

/-- `BaseRepository.save_all` (generic_repository_impl.py lines 43-63): empty
input returns `[]` with no store interaction; otherwise the entities are added
to the session, flushed once, and each one refreshed. -/
def save_all (db : List Row) (entities : List Row) : WriteOut (List Row) :=
  if entities.isEmpty then ⟨db, [], 0⟩
  else ⟨db ++ entities, entities, 1 + entities.length⟩

/-- `BaseRepository.find_by_ids` (generic_repository_impl.py lines 258-274):
empty input returns `[]` with no query; otherwise one SELECT with an `IN`
filter on the id column. -/
def find_by_ids (db : List Row) (entity_ids : List Int) : ReadOut (List Row) :=
  if entity_ids.isEmpty then ⟨[], 0⟩
  else ⟨db.filter (fun r => entity_ids.contains r.id), 1⟩

/-- Write the value of one column of a row, as the bulk UPDATE statement
`values(**{field_name: new_value})` does per affected row. -/
def Row.setVal (r : Row) (field : String) (v : Int) : Row :=
  { r with vals := (field, v) :: r.vals.filter (fun p => p.1 ≠ field) }

/-- The kinds of Python objects bound to the transactional wrapper's `self`
parameter in this codebase.  The wrapper is declared as
`async def wrapper(self, *args, **kwargs)`, so `self` captures the first
positional argument of the call: for the decorated instance methods of
`BaseRepository` that is the repository object (whose constructor stored an
`AsyncSession` in its `session` attribute); for the decorated staticmethods of
`RepositoryHelpers` — `@staticmethod` is applied over `@transactional`, so the
call reaches the wrapper unbound — it is the `AsyncSession` passed as first
argument. -/
inductive WrapperSelf where
  | repositoryInstance
  | asyncSessionArg
deriving Repr, DecidableEq

/-- The non-root session resolution of the transactional wrapper
(transactional_decorator.py lines 96-98):
`getattr(self, "session", None)` followed by
`isinstance(session, AsyncSession)`.  A repository instance carries a valid
session; an `AsyncSession` (sqlmodel's subclass of the SQLAlchemy one)
defines no attribute named `session`, so the lookup yields `None` and the
isinstance check fails. -/
def sessionResolvable : WrapperSelf → Bool
  | .repositoryInstance => true
  | .asyncSessionArg => false

/-- The entry stage of the transactional wrapper around a decorated
`RepositoryHelpers` staticmethod returning through a `ReadOut`: because
`self` is the `AsyncSession` argument, session resolution fails and
`ValueError("Could not obtain a valid AsyncSession")` is raised before the
wrapped body can run or touch the store.  (The commit/flush/rollback exit
stage, modeled by `transactionalExit`, alters neither the returned value nor
a raised exception and is elided here.) -/
def staticHelperRead {β : Type} (body : ReadOut (Except PyExc β)) :
    ReadOut (Except PyExc β) :=
  if sessionResolvable .asyncSessionArg then body
  else ⟨.error (.valueErrorExc "Could not obtain a valid AsyncSession"), 0⟩

/-- `staticHelperRead` for a write-shaped staticmethod: the database is left
untouched when the wrapper raises before the body. -/
def staticHelperWrite {β : Type} (db : List Row) (body : WriteOut (Except PyExc β)) :
    WriteOut (Except PyExc β) :=
  if sessionResolvable .asyncSessionArg then body
  else ⟨db, .error (.valueErrorExc "Could not obtain a valid AsyncSession"), 0⟩

/-- `staticHelperRead` for a staticmethod modeled as a bare `Except`. -/
def staticHelperExc {β : Type} (body : Except PyExc β) : Except PyExc β :=
  if sessionResolvable .asyncSessionArg then body
  else .error (.valueErrorExc "Could not obtain a valid AsyncSession")

/-- The undecorated body (the `fn` handed to `transactional`) of
`RepositoryHelpers.bulk_update_field` (repository_helpers.py lines 538-575):
empty id list returns `0` before validating or querying; otherwise the field
name is validated and one UPDATE sets it on every row whose id is in the
list, returning the affected row count. -/
def bulk_update_field_fn (db : List Row) (E : EntityClass) (entity_ids : List Int)
    (field_name : String) (new_value : Int) : WriteOut (Except PyExc Nat) :=
  if entity_ids.isEmpty then ⟨db, .ok 0, 0⟩
  else
    match validate_fields E [field_name] with
    | .error e => ⟨db, .error e, 0⟩
    | .ok _ =>
        let affected := (db.filter (fun r => entity_ids.contains r.id)).length
        ⟨db.map (fun r =>
            if entity_ids.contains r.id then r.setVal field_name new_value else r),
          .ok affected, 1⟩

/-- `RepositoryHelpers.bulk_update_field` as actually callable: the
`@transactional` staticmethod.  Its wrapper binds `self` to the
`AsyncSession` argument, so every call — the empty id list included — raises
`ValueError("Could not obtain a valid AsyncSession")` before the body runs. -/
def bulk_update_field (db : List Row) (E : EntityClass) (entity_ids : List Int)
    (field_name : String) (new_value : Int) : WriteOut (Except PyExc Nat) :=
  staticHelperWrite db (bulk_update_field_fn db E entity_ids field_name new_value)

/-- The `Pagination` metadata model (`src/app/core/model`), as populated by the
paging operations. -/
structure Pagination where
  current_page : Int
  per_page : Int
  total : Int
  total_pages : Int
  next_page : Option Int
  previous_page : Option Int
deriving Repr, DecidableEq

/-- A `Page`: serialized data plus pagination metadata. -/
structure Page where
  data : List Row
  meta : Pagination
deriving Repr, DecidableEq

/-- `BaseRepository.get_pageable` (generic_repository_impl.py lines 353-416),
with the optional join/where arguments at their `None` defaults: clamp page
and size, SELECT one slice ordered by id, COUNT the total, and derive
`total_pages = math.ceil(total / size)` (computed here as exact ceiling
division, which the float expression realises for store-sized totals),
`next_page` and `previous_page`. -/
def get_pageable (db : List Row) (page size : Int) : ReadOut Page :=
  let page := if page < 1 then 1 else page
  let size := if size < 1 then 10 else size
  let offset := (page - 1) * size
  let data := ((sortById db).drop offset.toNat).take size.toNat
  let total_items : Int := db.length
  let total_pages : Int := if total_items > 0 then (total_items + size - 1) / size else 1
  let next_page := if page < total_pages then some (page + 1) else none
  let previous_page := if page > 1 then some (page - 1) else none
  ⟨⟨data, ⟨page, size, total_items, total_pages, next_page, previous_page⟩⟩, 2⟩

/-- Abbreviation for the pagination metadata returned by `get_pageable`. -/
def pageMeta (db : List Row) (page size : Int) : Pagination :=
  (get_pageable db page size).ret.meta

/-- Sort rows by a column value; descending is `order_by(attr.desc())`. -/
def sortByField (db : List Row) (field : String) (ascending : Bool) : List Row :=
  if ascending then insSort (fun a b => a.getVal field ≤ b.getVal field) db
  else insSort (fun a b => b.getVal field ≤ a.getVal field) db

/-- The undecorated body of `RepositoryHelpers.find_all_ordered_by`
(repository_helpers.py lines 107-148): validates
`{order_field: None, **kwargs}`, applies the equality filters, and returns
the rows ordered by the field ascending or descending. -/
def find_all_ordered_by_fn (db : List Row) (E : EntityClass) (order_field : String)
    (ascending : Bool) (kwargs : List (String × Int)) : Except PyExc (List Row) :=
  match validate_fields E (order_field :: kwargs.map Prod.fst) with
  | .error e => .error e
  | .ok _ =>
      let filtered := db.filter (fun r => kwargs.all (fun kv => r.getVal kv.1 = kv.2))
      .ok (sortByField filtered order_field ascending)

/-- `RepositoryHelpers.find_all_ordered_by` as actually callable: the
`@transactional` staticmethod, whose wrapper binds `self` to the
`AsyncSession` argument and raises `ValueError` before the body runs. -/
def find_all_ordered_by (db : List Row) (E : EntityClass) (order_field : String)
    (ascending : Bool) (kwargs : List (String × Int)) : Except PyExc (List Row) :=
  staticHelperExc (find_all_ordered_by_fn db E order_field ascending kwargs)

/-- The undecorated body of `RepositoryHelpers.find_first_ordered_by`
(repository_helpers.py lines 150-178): `entities[0] if entities else None`
over `RepositoryHelpers.find_all_ordered_by` — the decorated staticmethod,
line 175 — at the same direction. -/
def find_first_ordered_by_fn (db : List Row) (E : EntityClass) (order_field : String)
    (ascending : Bool) (kwargs : List (String × Int)) : Except PyExc (Option Row) :=
  (find_all_ordered_by db E order_field ascending kwargs).map List.head?

/-- `RepositoryHelpers.find_first_ordered_by` as actually callable: its own
`@transactional` wrapper raises `ValueError` before the body delegates. -/
def find_first_ordered_by (db : List Row) (E : EntityClass) (order_field : String)
    (ascending : Bool) (kwargs : List (String × Int)) : Except PyExc (Option Row) :=
  staticHelperExc (find_first_ordered_by_fn db E order_field ascending kwargs)

/-- The undecorated body of `RepositoryHelpers.find_last_ordered_by`
(repository_helpers.py lines 180-208): `entities[0] if entities else None`
over `RepositoryHelpers.find_all_ordered_by` — the decorated staticmethod,
line 205 — at `not ascending`. -/
def find_last_ordered_by_fn (db : List Row) (E : EntityClass) (order_field : String)
    (ascending : Bool) (kwargs : List (String × Int)) : Except PyExc (Option Row) :=
  (find_all_ordered_by db E order_field (!ascending) kwargs).map List.head?

/-- `RepositoryHelpers.find_last_ordered_by` as actually callable: its own
`@transactional` wrapper raises `ValueError` before the body delegates. -/
def find_last_ordered_by (db : List Row) (E : EntityClass) (order_field : String)
    (ascending : Bool) (kwargs : List (String × Int)) : Except PyExc (Option Row) :=
  staticHelperExc (find_last_ordered_by_fn db E order_field ascending kwargs)

/-- The undecorated body of `RepositoryHelpers.find_all_in_list`
(repository_helpers.py lines 279-313): an empty value list returns `[]`
immediately — before the field name is validated and with no query; otherwise
the field is validated and one SELECT with an `IN` filter runs, ordered by
id. -/
def find_all_in_list_fn (db : List Row) (E : EntityClass) (field_name : String)
    (values : List Int) : ReadOut (Except PyExc (List Row)) :=
  if values.isEmpty then ⟨.ok [], 0⟩
  else
    match validate_fields E [field_name] with
    | .error e => ⟨.error e, 0⟩
    | .ok _ =>
        ⟨.ok (sortById (db.filter (fun r => values.contains (r.getVal field_name)))), 1⟩

/-- `RepositoryHelpers.find_all_in_list` as actually callable: the
`@transactional` staticmethod, raising `ValueError` at the wrapper on every
call before the empty-values early return can be reached. -/
def find_all_in_list (db : List Row) (E : EntityClass) (field_name : String)
    (values : List Int) : ReadOut (Except PyExc (List Row)) :=
  staticHelperRead (find_all_in_list_fn db E field_name values)

/-- The undecorated body of `RepositoryHelpers.find_all_not_in_list`
(repository_helpers.py lines 315-354): an empty value list returns every
row — again before the field name is validated; otherwise the field is
validated and one SELECT with a negated `IN` filter runs, ordered by id. -/
def find_all_not_in_list_fn (db : List Row) (E : EntityClass) (field_name : String)
    (values : List Int) : ReadOut (Except PyExc (List Row)) :=
  if values.isEmpty then ⟨.ok (sortById db), 1⟩
  else
    match validate_fields E [field_name] with
    | .error e => ⟨.error e, 0⟩
    | .ok _ =>
        ⟨.ok (sortById (db.filter (fun r => !values.contains (r.getVal field_name)))), 1⟩

/-- `RepositoryHelpers.find_all_not_in_list` as actually callable: the
`@transactional` staticmethod, raising `ValueError` at the wrapper on every
call. -/
def find_all_not_in_list (db : List Row) (E : EntityClass) (field_name : String)
    (values : List Int) : ReadOut (Except PyExc (List Row)) :=
  staticHelperRead (find_all_not_in_list_fn db E field_name values)

/-- The deadlock classification of `_run_retries`
(transactional_decorator.py line 150): `"deadlock" in str(oe).lower()`. -/
def hasDeadlockText (msg : String) : Bool :=
  containsSeg (lowerData msg) "deadlock".data

/-- `_run_retries` (transactional_decorator.py lines 142-155).  The wrapped
body (`_run_timeout`) is abstracted as a function from the invocation index to
its outcome.  The loop keeps the attempt counter, re-running the body after an
`OperationalError` only while the attempt budget is not exhausted and the
error text is deadlock-classified.  Returns the final outcome and the number
of times the body ran.  The `fuel` argument only bounds the recursion
structurally: it starts at `retries` and the zero-fuel fallback can only be
reached with `attempt = retries`, where the budget check raises the same
value first. -/
def runRetriesAux {α : Type} (body : Nat → Except PyExc α) (retries : Nat) :
    Nat → Nat → Except PyExc α × Nat
  | attempt, fuel =>
    match body attempt with
    | .ok v => (.ok v, attempt + 1)
    | .error (.operationalError msg) =>
        if retries ≤ attempt ∨ hasDeadlockText msg = false then
          (.error (.operationalError msg), attempt + 1)
        else
          match fuel with
          | 0 => (.error (.operationalError msg), attempt + 1)
          | fuel' + 1 => runRetriesAux body retries (attempt + 1) fuel'
    | .error e => (.error e, attempt + 1)

/-- `_run_retries` started at attempt 0. -/
def runRetries {α : Type} (body : Nat → Except PyExc α) (retries : Nat) :
    Except PyExc α × Nat :=
  runRetriesAux body retries 0 retries

/-- `_execute = _run_retries if retries else _run_timeout`
(transactional_decorator.py line 155): with `retries = 0` the body runs
exactly once. -/
def txExecute {α : Type} (body : Nat → Except PyExc α) (retries : Nat) :
    Except PyExc α × Nat :=
  if retries ≠ 0 then runRetries body retries
  else (body 0, 1)

/-- The `except (IntegrityError, InvalidFieldException, SQLAlchemyError)`
clause of the transactional wrapper (transactional_decorator.py line 200):
these exception classes are re-raised directly, skipping the rollback
handler. -/
def reraisedWithoutRollback (e : PyExc) : Bool :=
  e.isSqlAlchemyError ||
    (match e with
     | .invalidFieldExc _ _ => true
     | _ => false)

instance {ε α : Type} [DecidableEq ε] [DecidableEq α] : DecidableEq (Except ε α) := fun x y =>
  match x, y with
  | .ok a, .ok b => if h : a = b then .isTrue (by rw [h]) else .isFalse (by simp [h])
  | .error a, .error b => if h : a = b then .isTrue (by rw [h]) else .isFalse (by simp [h])
  | .ok _, .error _ => .isFalse (by simp)
  | .error _, .ok _ => .isFalse (by simp)

/-- What the transactional wrapper did on the session around one call. -/
structure TxResult (α : Type) where
  result : Except PyExc α
  committed : Bool
  flushed : Bool
  rolledBack : Bool
deriving Repr, DecidableEq

/-- The non-root commit/flush/rollback stage of the `transactional` wrapper
(transactional_decorator.py lines 164-207), for a call that reached the body.
`tx_before` is `session.in_transaction()` sampled on entry (line 106);
`tx_after` is `session.in_transaction()` once the body has finished or
raised.  On success the wrapper commits when this invocation started the
transaction and otherwise flushes when `auto_flush` is set (identically for
the readonly and write branches); on failure the first `except` clause
re-raises SQLAlchemy and invalid-field errors untouched, and only the generic
`except Exception` clause rolls back — when this invocation did not find a
pre-existing transaction but one is now open — before re-raising. -/
def transactionalExit {α : Type} (readonly auto_flush : Bool) (tx_before : Bool)
    (body : Except PyExc α) (tx_after : Bool) : TxResult α :=
  match body with
  | .ok v =>
      let self_started := !tx_before && tx_after
      if readonly then
        if self_started then ⟨.ok v, true, false, false⟩
        else if auto_flush then ⟨.ok v, false, true, false⟩
        else ⟨.ok v, false, false, false⟩
      else
        if self_started then ⟨.ok v, true, false, false⟩
        else if auto_flush then ⟨.ok v, false, true, false⟩
        else ⟨.ok v, false, false, false⟩
  | .error e =>
      if reraisedWithoutRollback e then ⟨.error e, false, false, false⟩
      else ⟨.error e, false, false, !tx_before && tx_after⟩

/-- `\w` of the Python patterns on the ASCII range. -/
def isWordChar (c : Char) : Bool := c.isAlphanum || c = '_'

/-- `\s` of the Python patterns. -/
def isPySpace (c : Char) : Bool :=
  c = ' ' || c = '\t' || c = '\n' || c = '\r' || c = '\x0b' || c = '\x0c'

/-- The keyword alternation of the first dangerous pattern,
`\b(DROP|ALTER|CREATE|TRUNCATE|DELETE|INSERT|UPDATE)\s+(?!.*WHERE)`,
lower-cased because the scan runs IGNORECASE. -/
def ddlKeywords : List (List Char) :=
  ["drop".data, "alter".data, "create".data, "truncate".data,
   "delete".data, "insert".data, "update".data]

/-- Is there an occurrence of "where" at or after this position with no
newline before it?  This is `.*WHERE` of the negative lookahead: `.` does not
cross a newline. -/
def whereOnLine : List Char → Bool
  | [] => false
  | c :: rest =>
      if c = '\n' then false
      else startsWithSeg (c :: rest) "where".data || whereOnLine rest

/-- Backtracking continuation of `\s+(?!.*WHERE)` once at least one
whitespace character has been consumed: the lookahead may be checked here, or
one more whitespace character may be consumed first. -/
def p1Rest : List Char → Bool
  | [] => true
  | c :: r => !whereOnLine (c :: r) || (isPySpace c && p1Rest r)

/-- `\s+(?!.*WHERE)` at a position: at least one whitespace character, then a
position where no "where" follows on the same line. -/
def p1Tail : List Char → Bool
  | [] => false
  | c :: rest => isPySpace c && p1Rest rest

/-- Scan of the first dangerous pattern; `prevIsWord` tracks the word
boundary `\b`. -/
def p1Scan (prevIsWord : Bool) : List Char → Bool
  | [] => false
  | c :: rest =>
      (!prevIsWord && ddlKeywords.any (fun kw =>
          startsWithSeg (c :: rest) kw && p1Tail ((c :: rest).drop kw.length)))
      || p1Scan (isWordChar c) rest

/-- `\s*DROP\s+` after a semicolon (second dangerous pattern, `;\s*DROP\s+`),
with the spaces consumed one at a time. -/
def p2Tail : List Char → Bool
  | [] => false
  | c :: r =>
      (startsWithSeg (c :: r) "drop".data &&
        (match (c :: r).drop 4 with
         | d :: _ => isPySpace d
         | [] => false))
      || (isPySpace c && p2Tail r)

/-- Scan of the second dangerous pattern, `;\s*DROP\s+`. -/
def p2Scan : List Char → Bool
  | [] => false
  | c :: r => (c = ';' && p2Tail r) || p2Scan r

/-- Closing `*/` of the fourth dangerous pattern `/\*.*\*/`, reachable
without crossing a newline. -/
def closeCommentOnLine : List Char → Bool
  | [] => false
  | c :: rest =>
      if c = '\n' then false
      else startsWithSeg (c :: rest) "*/".data || closeCommentOnLine rest

/-- Scan of the fourth dangerous pattern, `/\*.*\*/`. -/
def p4Scan : List Char → Bool
  | [] => false
  | c :: r =>
      (startsWithSeg (c :: r) "/*".data && closeCommentOnLine (r.drop 1))
      || p4Scan r

/-- The keyword alternation of the fifth dangerous pattern,
`\b(EXEC|EXECUTE|SP_|XP_)\s*\(`. -/
def procKeywords : List (List Char) :=
  ["exec".data, "execute".data, "sp_".data, "xp_".data]

/-- `\s*\(` at a position. -/
def p5Tail : List Char → Bool
  | [] => false
  | c :: r => c = '(' || (isPySpace c && p5Tail r)

/-- Scan of the fifth dangerous pattern. -/
def p5Scan (prevIsWord : Bool) : List Char → Bool
  | [] => false
  | c :: rest =>
      (!prevIsWord && procKeywords.any (fun kw =>
          startsWithSeg (c :: rest) kw && p5Tail ((c :: rest).drop kw.length)))
      || p5Scan (isWordChar c) rest

/-- `\s+` then a continuation, spaces consumed one at a time (the
continuations below start with non-space characters, so greedy matching and
this backtracking formulation agree). -/
def afterSpacesRest (k : List Char → Bool) : List Char → Bool
  | [] => k []
  | c :: r => k (c :: r) || (isPySpace c && afterSpacesRest k r)

/-- `\s+` (at least one whitespace character) then a continuation. -/
def afterSpaces1 (k : List Char → Bool) : List Char → Bool
  | [] => false
  | c :: r => isPySpace c && afterSpacesRest k r

/-- Scan of the sixth dangerous pattern,
`\b(UNION\s+SELECT|UNION\s+ALL\s+SELECT)`. -/
def p6Scan (prevIsWord : Bool) : List Char → Bool
  | [] => false
  | c :: rest =>
      (!prevIsWord && startsWithSeg (c :: rest) "union".data &&
        afterSpaces1 (fun t =>
            startsWithSeg t "select".data ||
              (startsWithSeg t "all".data &&
                afterSpaces1 (fun u => startsWithSeg u "select".data) (t.drop 3)))
          ((c :: rest).drop 5))
      || p6Scan (isWordChar c) rest

/-- Scan of the seventh dangerous pattern, `@@\w+`. -/
def p7Scan : List Char → Bool
  | [] => false
  | c :: r =>
      (c = '@' &&
        (match r with
         | d :: rest2 =>
             d = '@' &&
               (match rest2 with
                | e :: _ => isWordChar e
                | [] => false)
         | [] => false))
      || p7Scan r

/-- `COMPILED_PATTERNS` applied to a string (query_decorator.py lines 17-29):
true when any of the seven IGNORECASE dangerous patterns matches somewhere in
the string.  The third pattern `--\s*` degenerates to containing `--` since
`\s*` may be empty. -/
def matchesDangerousSql (s : String) : Bool :=
  let l := lowerData s
  p1Scan false l || p2Scan l || containsSeg l "--".data || p4Scan l ||
    p5Scan false l || p6Scan false l || p7Scan l

/-- `_validate_sql_security` (query_decorator.py lines 135-148): raises
`DatabaseException` when a dangerous pattern matches.  (The source interpolates
the matching pattern into the details; the details are kept generic here.) -/
def validate_sql_security (sql : String) : Except PyExc Unit :=
  if matchesDangerousSql sql then
    .error (.databaseExc "Potentially dangerous SQL pattern detected"
      "Pattern matched" "SQL Security Validation")
  else .ok ()

/-- Python `str.strip()` on a character list. -/
def stripData (l : List Char) : List Char :=
  ((l.dropWhile isPySpace).reverse.dropWhile isPySpace).reverse

/-- Longest run of `\w` characters at the head of the list. -/
def takeWord : List Char → List Char
  | [] => []
  | c :: r => if isWordChar c then c :: takeWord r else []

/-- `re.findall(r":(\w+)", sql)` (query_decorator.py line 159): every named
placeholder of the query text, in order of appearance.  `re.findall` resumes
scanning after each match; resuming inside the matched word instead is
equivalent because the captured `\w+` characters contain no `:`, and keeps
the recursion structural. -/
def extractSqlParams : List Char → List String
  | [] => []
  | c :: r =>
      if c = ':' then
        let w := takeWord r
        if w.isEmpty then extractSqlParams r
        else ⟨w⟩ :: extractSqlParams r
      else extractSqlParams r

/-- `_validate_sql_parameters` (query_decorator.py lines 151-169): every named
placeholder must be a parameter of the wrapped function signature. -/
def validate_sql_parameters (sql : String) (funcParams : List String) :
    Except PyExc Unit :=
  let missing := (extractSqlParams sql.data).filter (fun p => !memStr p funcParams)
  if missing.isEmpty then .ok ()
  else
    .error (.databaseExc "SQL parameters missing from function signature"
      ("Missing parameters: " ++ String.intercalate ", " missing)
      "SQL Parameter Validation")

/-- A query registered by the `query` decorator: the cleaned text and the
wrapped function parameter names. -/
structure QueryDef where
  sqlClean : String
  funcParams : List String
deriving Repr, DecidableEq

/-- The decoration/registration stage of the `query` decorator
(query_decorator.py lines 63-73): the query text is normalized
(`textwrap.dedent(sql).strip()`, modeled by the strip — dedent only removes
indentation common to every line and changes no pattern decision), screened
against the dangerous patterns unless `allow_dangerous`, and its placeholders
are checked against the function signature; all of this happens before any
call. -/
def query_setup (sql : String) (allow_dangerous : Bool) (funcParams : List String) :
    Except PyExc QueryDef :=
  let sql_clean : String := ⟨stripData sql.data⟩
  match (if allow_dangerous then .ok () else validate_sql_security sql_clean :
      Except PyExc Unit) with
  | .error e => .error e
  | .ok _ =>
      match validate_sql_parameters sql_clean funcParams with
      | .error e => .error e
      | .ok _ => .ok ⟨sql_clean, funcParams⟩

/-- A Python value bound as a query parameter. -/
inductive PyVal where
  | str (s : String)
  | intVal (n : Int)
  | noneVal
deriving Repr, DecidableEq

/-- `_validate_parameter_values` (query_decorator.py lines 172-187): every
string-typed argument is re-scanned against the same dangerous patterns and
the call fails at the first suspicious one. -/
def validate_parameter_values (params : List (String × PyVal)) : Except PyExc Unit :=
  match params.find? (fun p =>
      match p.2 with
      | .str s => matchesDangerousSql s
      | _ => false) with
  | some p =>
      .error (.databaseExc "Suspicious SQL pattern in parameter value"
        ("Parameter " ++ p.1 ++ " contains potential injection")
        "Parameter Value Validation")
  | none => .ok ()

/-- Outcome of one call through the `query` wrapper: the Python result and
whether the SQL was actually executed against the session. -/
structure CallOut (α : Type) where
  ret : Except PyExc α
  executed : Bool
deriving Repr, DecidableEq

/-- The call stage of the `query` wrapper (query_decorator.py lines 76-128):
the bound arguments are validated before the session is touched; only then is
the statement executed with the parameters bound by name.  Execution itself
and result shaping (`fetch` modes, row-to-model mapping) happen behind the
store boundary and are abstracted by the `execResult` rows the store would
return. -/
def query_call (_qd : QueryDef) (params : List (String × PyVal))
    (execResult : List Row) : CallOut (List Row) :=
  match validate_parameter_values params with
  | .error e => ⟨.error e, false⟩
  | .ok _ => ⟨.ok execResult, true⟩

theorem mem_insertLe {α : Type} (le : α → α → Bool) (a x : α) (l : List α) :
    x ∈ insertLe le a l ↔ x = a ∨ x ∈ l := by
  induction l with
  | nil => simp [insertLe]
  | cons b t ih =>
    simp only [insertLe]
    split
    · simp
    · simp only [List.mem_cons, ih]
      tauto

theorem mem_insSort {α : Type} (le : α → α → Bool) (x : α) (l : List α) :
    x ∈ insSort le l ↔ x ∈ l := by
  induction l with
  | nil => simp [insSort]
  | cons b t ih => simp [insSort, mem_insertLe, ih]

/-- Helper: `memStr` agrees with list membership. -/
theorem memStr_iff (k : String) (l : List String) : memStr k l = true ↔ k ∈ l := by
  simp [memStr, List.any_eq_true]

/-- Helper: a field outside the valid set makes `validate_fields` on the
singleton key list fail with an invalid-field error. -/
theorem validate_fields_single_invalid (E : EntityClass) (f : String)
    (hf : f ∉ validFields E) :
    validate_fields E [f] = .error (.invalidFieldExc
      ("Field " ++ f ++ " does not exist in the " ++ E.className ++ " model")
      ("Valid fields are: " ++ String.intercalate ", " (sortedValidFields E))) := by
  have hm : memStr f (validFields E) = false := by
    cases hcase : memStr f (validFields E)
    · rfl
    · exact absurd ((memStr_iff f (validFields E)).1 hcase) hf
  simp [validate_fields, List.find?, hm]

/-- C7: `save_all([])` and `find_by_ids([])` return empty with zero store
queries as claimed; `bulk_update_field`, however, raises
`ValueError("Could not obtain a valid AsyncSession")` at its `@transactional`
wrapper on every call — the empty id list included — instead of returning 0,
because the wrapper of the decorated staticmethod binds `self` to the
`AsyncSession` argument, which has no `session` attribute.  The undecorated
body does return 0 for the empty list without touching the store, as the
claim and the function's own docstring describe. -/
theorem empty_inputs_no_store (db : List Row) (E : EntityClass)
    (f : String) (v : Int) :
    save_all db [] = ⟨db, [], 0⟩ ∧
    find_by_ids db [] = ⟨[], 0⟩ ∧
    (∀ ids : List Int, bulk_update_field db E ids f v
        = ⟨db, .error (.valueErrorExc "Could not obtain a valid AsyncSession"), 0⟩) ∧
    bulk_update_field_fn db E [] f v = ⟨db, .ok 0, 0⟩ :=
  ⟨rfl, rfl, fun _ => rfl, rfl⟩

/-- C8: in the undecorated bodies, `find_last_ordered_by` is exactly the
first element (or `None` when empty) of the `find_all_ordered_by` call at
`not ascending` and coincides with `find_first_ordered_by` at the reversed
flag — the delegation structure the claim describes; but every actual call to
any of the three helpers raises
`ValueError("Could not obtain a valid AsyncSession")` at its `@transactional`
wrapper (`self` is the `AsyncSession` argument), so the described scan results
are never produced by the program. -/
theorem find_last_is_first_reversed (db : List Row) (E : EntityClass)
    (f : String) (asc : Bool) (kw : List (String × Int)) :
    find_last_ordered_by_fn db E f asc kw
        = (find_all_ordered_by db E f (!asc) kw).map List.head? ∧
    find_last_ordered_by_fn db E f asc kw
        = find_first_ordered_by_fn db E f (!asc) kw ∧
    find_last_ordered_by db E f asc kw
        = .error (.valueErrorExc "Could not obtain a valid AsyncSession") ∧
    find_first_ordered_by db E f asc kw
        = .error (.valueErrorExc "Could not obtain a valid AsyncSession") ∧
    find_all_ordered_by db E f asc kw
        = .error (.valueErrorExc "Could not obtain a valid AsyncSession") :=
  ⟨rfl, rfl, rfl, rfl, rfl⟩

/-- C9 counterexample: calling `find_all_in_list` with a field name that is
no field of the entity class raises the wrapper's `ValueError` — never
`InvalidFieldException` — for empty and nonempty value lists alike, and
`find_all_not_in_list` behaves identically: the `@transactional` staticmethod
wrapper fails its session resolution before any field validation can run, so
the claim that an unknown field name always raises `InvalidFieldException` is
false. -/
theorem in_list_unknown_field_counterexample :
    "nope" ∉ validFields ⟨"Grade", ["id", "grade_name"]⟩ ∧
    (find_all_in_list [] ⟨"Grade", ["id", "grade_name"]⟩ "nope" []).ret
        = .error (.valueErrorExc "Could not obtain a valid AsyncSession") ∧
    (find_all_in_list [] ⟨"Grade", ["id", "grade_name"]⟩ "nope" [0]).ret
        = .error (.valueErrorExc "Could not obtain a valid AsyncSession") ∧
    (find_all_not_in_list [] ⟨"Grade", ["id", "grade_name"]⟩ "nope" []).ret
        = .error (.valueErrorExc "Could not obtain a valid AsyncSession") ∧
    (∀ m d, (find_all_in_list [] ⟨"Grade", ["id", "grade_name"]⟩ "nope" []).ret
        ≠ .error (.invalidFieldExc m d)) :=
  ⟨by decide, rfl, rfl, rfl, fun m d h => by
    rw [show (find_all_in_list [] ⟨"Grade", ["id", "grade_name"]⟩ "nope" []).ret
        = .error (.valueErrorExc "Could not obtain a valid AsyncSession") from rfl] at h
    simp at h⟩

/-- C9 amended: every call to `find_all_in_list` and `find_all_not_in_list`
raises `ValueError` at the `@transactional` wrapper before any validation or
query; in the undecorated bodies — the code the wrapper was meant to run — a
nonempty value list has the field name validated before the query (an unknown
field raises `InvalidFieldException` with zero store round trips), while an
empty value list returns early before validation: `[]` with no query for
`find_all_in_list`, all rows for `find_all_not_in_list`. -/
theorem in_list_validation_amended (db : List Row) (E : EntityClass)
    (f : String) (values : List Int) (hv : values ≠ [])
    (hf : f ∉ validFields E) :
    find_all_in_list db E f values
        = ⟨.error (.valueErrorExc "Could not obtain a valid AsyncSession"), 0⟩ ∧
    find_all_not_in_list db E f values
        = ⟨.error (.valueErrorExc "Could not obtain a valid AsyncSession"), 0⟩ ∧
    (∃ m d, find_all_in_list_fn db E f values = ⟨.error (.invalidFieldExc m d), 0⟩) ∧
    (∃ m d, find_all_not_in_list_fn db E f values
        = ⟨.error (.invalidFieldExc m d), 0⟩) ∧
    find_all_in_list_fn db E f [] = ⟨.ok [], 0⟩ ∧
    find_all_not_in_list_fn db E f [] = ⟨.ok (sortById db), 1⟩ := by
  have hne : values.isEmpty = false := by
    cases values with
    | nil => exact absurd rfl hv
    | cons a l => rfl
  have hval := validate_fields_single_invalid E f hf
  refine ⟨rfl, rfl,
    ⟨"Field " ++ f ++ " does not exist in the " ++ E.className ++ " model",
      "Valid fields are: " ++ String.intercalate ", " (sortedValidFields E), ?_⟩,
    ⟨"Field " ++ f ++ " does not exist in the " ++ E.className ++ " model",
      "Valid fields are: " ++ String.intercalate ", " (sortedValidFields E), ?_⟩,
    rfl, rfl⟩
  · simp [find_all_in_list_fn, hne, hval]
  · simp [find_all_not_in_list_fn, hne, hval]

/-- C9 amended, witnessed at a concrete unknown field with one value. -/
theorem in_list_validation_amended_witness :
    find_all_in_list [] ⟨"Grade", ["id", "grade_name"]⟩ "nope" [0]
        = ⟨.error (.valueErrorExc "Could not obtain a valid AsyncSession"), 0⟩ ∧
    find_all_not_in_list [] ⟨"Grade", ["id", "grade_name"]⟩ "nope" [0]
        = ⟨.error (.valueErrorExc "Could not obtain a valid AsyncSession"), 0⟩ ∧
    (∃ m d, find_all_in_list_fn [] ⟨"Grade", ["id", "grade_name"]⟩ "nope" [0]
        = ⟨.error (.invalidFieldExc m d), 0⟩) ∧
    (∃ m d, find_all_not_in_list_fn [] ⟨"Grade", ["id", "grade_name"]⟩ "nope" [0]
        = ⟨.error (.invalidFieldExc m d), 0⟩) ∧
    find_all_in_list_fn [] ⟨"Grade", ["id", "grade_name"]⟩ "nope" [] = ⟨.ok [], 0⟩ ∧
    find_all_not_in_list_fn [] ⟨"Grade", ["id", "grade_name"]⟩ "nope" []
        = ⟨.ok (sortById []), 1⟩ :=
  in_list_validation_amended [] ⟨"Grade", ["id", "grade_name"]⟩ "nope" [0]
    (by decide) (by decide)

/-- C2 counterexample: a validation exception (`InvalidFieldException`)
raised by the body, with no pre-existing transaction and a transaction open
at the catch site, is re-raised by the first `except` clause without any
rollback — the claim that domain and validation exceptions trigger rollback
exactly like unexpected errors is false for the validation case. -/
theorem transactional_rollback_claim_counterexample :
    ¬ ((transactionalExit (α := Nat) true true false
        (.error (.invalidFieldExc "m" "d")) true).rolledBack = true) := by
  decide

/-- C2 amended: with no pre-existing transaction and one open at the catch
site, not-found and conflict exceptions pass through the transactional
wrapper unmodified and trigger rollback (via the generic handler, like any
unexpected error); validation exceptions (`InvalidFieldException`) also pass
through unmodified but are matched by the SQLAlchemy re-raise clause and
never trigger rollback. -/
theorem transactionalExit_domain_error_paths {α : Type}
    (readonly auto_flush : Bool) (e : PyExc) (tx_after : Bool) :
    ((e = .notFoundExc ∨ e = .conflictExc) →
      (transactionalExit (α := α) readonly auto_flush false (.error e) true).result
          = .error e ∧
      (transactionalExit (α := α) readonly auto_flush false (.error e) true).rolledBack
          = true) ∧
    (∀ m d, e = .invalidFieldExc m d → ∀ tx_before,
      (transactionalExit (α := α) readonly auto_flush tx_before (.error e) tx_after).result
          = .error e ∧
      (transactionalExit (α := α) readonly auto_flush tx_before (.error e) tx_after).rolledBack
          = false) := by
  constructor
  · rintro (rfl | rfl) <;> exact ⟨rfl, rfl⟩
  · rintro m d rfl tx_before
    exact ⟨rfl, rfl⟩

/-- C2 amended, witnessed at a not-found exception and at a concrete
validation exception. -/
theorem transactionalExit_domain_error_paths_witness :
    ((transactionalExit (α := Nat) false true false (.error .notFoundExc) true).result
        = .error .notFoundExc ∧
      (transactionalExit (α := Nat) false true false (.error .notFoundExc) true).rolledBack
        = true) ∧
    ((transactionalExit (α := Nat) false true false
          (.error (.invalidFieldExc "m" "d")) true).result
        = .error (.invalidFieldExc "m" "d") ∧
      (transactionalExit (α := Nat) false true false
          (.error (.invalidFieldExc "m" "d")) true).rolledBack = false) :=
  ⟨(transactionalExit_domain_error_paths false true PyExc.notFoundExc true).1
      (Or.inl rfl),
    (transactionalExit_domain_error_paths false true
        (PyExc.invalidFieldExc "m" "d") true).2 "m" "d" rfl false⟩

/-- C3: with `retries = 2`, a body raising deadlock-classified operational
errors on its first two invocations and succeeding on the third makes the
wrapped call return the success result with the body executed exactly 3
times; an operational error whose text is not deadlock-classified propagates
after a single invocation for every retry budget. -/
theorem retries_deadlock_then_success {α : Type} (v : α)
    (body : Nat → Except PyExc α) (m0 m1 : String)
    (h0 : body 0 = .error (.operationalError m0)) (hd0 : hasDeadlockText m0 = true)
    (h1 : body 1 = .error (.operationalError m1)) (hd1 : hasDeadlockText m1 = true)
    (h2 : body 2 = .ok v) :
    runRetries body 2 = (.ok v, 3) ∧
    (∀ (body2 : Nat → Except PyExc α) (msg : String) (retries : Nat),
      hasDeadlockText msg = false → body2 0 = .error (.operationalError msg) →
      runRetries body2 retries = (.error (.operationalError msg), 1)) := by
  constructor
  · simp [runRetries, runRetriesAux, h0, h1, h2, hd0, hd1]
  · intro body2 msg retries hmsg hb
    simp [runRetries, runRetriesAux, hb, hmsg]

/-- C3, witnessed at a concrete body failing twice with a deadlock text and a
concrete non-deadlock operational error. -/
theorem retries_deadlock_then_success_witness :
    runRetries (fun i => if i < 2 then
        .error (.operationalError "deadlock detected") else .ok (7 : Nat)) 2
      = (.ok 7, 3) ∧
    runRetries (fun _ => (.error (.operationalError "connection refused") :
        Except PyExc Nat)) 5
      = (.error (.operationalError "connection refused"), 1) := by
  have h := retries_deadlock_then_success (7 : Nat)
    (fun i => if i < 2 then .error (.operationalError "deadlock detected")
      else .ok (7 : Nat))
    "deadlock detected" "deadlock detected"
    (by decide) (by decide) (by decide) (by decide) (by decide)
  exact ⟨h.1, h.2 _ "connection refused" 5 (by decide) rfl⟩

/-- C5: the raw query template `DROP TABLE users;` is rejected with the
security-validation error at decoration time, whatever the wrapped function
signature and before any call exists; and for every query registered without
`allow_dangerous` (in particular every safe one), a call binding the string
value `1; DROP TABLE users` to any parameter fails the parameter-value
validation and never executes the statement. -/
theorem dangerous_sql_screening :
    (∀ funcParams, query_setup "DROP TABLE users;" false funcParams
        = .error (.databaseExc "Potentially dangerous SQL pattern detected"
            "Pattern matched" "SQL Security Validation")) ∧
    (∀ sql funcParams qd, query_setup sql false funcParams = .ok qd →
      ∀ params name execResult,
        (name, PyVal.str "1; DROP TABLE users") ∈ params →
        (query_call qd params execResult).executed = false ∧
        ∃ pn, (query_call qd params execResult).ret
          = .error (.databaseExc "Suspicious SQL pattern in parameter value"
              ("Parameter " ++ pn ++ " contains potential injection")
              "Parameter Value Validation")) := by
  constructor
  · intro funcParams
    rfl
  · intro sql funcParams qd _hsetup params name execResult hmem
    have hval : matchesDangerousSql "1; DROP TABLE users" = true := by decide
    have hpred : (fun p : String × PyVal =>
        match p.2 with
        | .str s => matchesDangerousSql s
        | _ => false) (name, PyVal.str "1; DROP TABLE users") = true := hval
    have hfind : params.find? (fun p : String × PyVal =>
        match p.2 with
        | .str s => matchesDangerousSql s
        | _ => false) ≠ none := by
      intro hnone
      exact absurd hpred (by simpa using List.find?_eq_none.1 hnone _ hmem)
    obtain ⟨q, hq⟩ := Option.ne_none_iff_exists'.1 hfind
    refine ⟨?_, q.1, ?_⟩ <;>
      simp [query_call, validate_parameter_values, hq]

/-- C5, witnessed by registering a safe parameterized query and calling it
with the injection-shaped parameter value. -/
theorem dangerous_sql_screening_witness :
    query_setup "DROP TABLE users;" false ["id"]
        = .error (.databaseExc "Potentially dangerous SQL pattern detected"
            "Pattern matched" "SQL Security Validation") ∧
    ((query_call ⟨"SELECT * FROM users WHERE id = :id", ["id"]⟩
          [("id", PyVal.str "1; DROP TABLE users")] []).executed = false ∧
      ∃ pn, (query_call ⟨"SELECT * FROM users WHERE id = :id", ["id"]⟩
            [("id", PyVal.str "1; DROP TABLE users")] []).ret
          = .error (.databaseExc "Suspicious SQL pattern in parameter value"
              ("Parameter " ++ pn ++ " contains potential injection")
              "Parameter Value Validation")) :=
  ⟨dangerous_sql_screening.1 ["id"],
    dangerous_sql_screening.2 "SELECT * FROM users WHERE id = :id" ["id"]
      ⟨"SELECT * FROM users WHERE id = :id", ["id"]⟩ (by decide)
      [("id", PyVal.str "1; DROP TABLE users")] "id" [] (by decide)⟩

/-- Helper: the distinct ids of the rows fetched by `delete_by_ids` number
exactly the distinct requested ids that exist in the database. -/
theorem found_ids_length (db : List Row) (ids : List Int) :
    ((db.filter (fun r => ids.contains r.id)).map Row.id).dedup.length
      = (ids.filter (fun i => db.any (fun r => r.id = i))).dedup.length := by
  rw [← List.card_toFinset, ← List.card_toFinset]
  congr 1
  ext x
  simp only [List.mem_toFinset, List.mem_map, List.mem_filter, List.any_eq_true,
    List.elem_iff, decide_eq_true_eq]
  constructor
  · rintro ⟨r, ⟨hr, hid⟩, rfl⟩
    exact ⟨hid, r, hr, rfl⟩
  · rintro ⟨hx, r, hr, hrid⟩
    exact ⟨r, ⟨hr, by rw [hrid]; exact hx⟩, hrid⟩

/-- Helper: case analysis of `delete_by_ids` on a nonempty id list. -/
theorem delete_by_ids_cases (db : List Row) (ids : List Int) (h : ids ≠ []) :
    ((delete_by_ids db ids).ret = true ∧
      ∀ r ∈ db, r.id ∈ ids → r ∉ (delete_by_ids db ids).db) ∨
    ((delete_by_ids db ids).ret = false ∧ (delete_by_ids db ids).db = db) := by
  have hne : ids.isEmpty = false := by
    cases ids with
    | nil => exact absurd rfl h
    | cons a l => rfl
  simp only [delete_by_ids, hne, Bool.false_eq_true, if_false, ne_eq]
  by_cases hlen : ((db.filter (fun r => ids.contains r.id)).map Row.id).dedup.length
      = ids.length
  · rw [if_neg (not_not_intro hlen)]
    left
    refine ⟨rfl, ?_⟩
    intro r hr hid
    simp only [List.mem_filter, not_and]
    intro _
    simp [List.elem_iff, hid]
  · rw [if_pos hlen]
    right
    exact ⟨rfl, rfl⟩

/-- C1: for every nonempty requested id list, `delete_by_ids` either returns
true and no row carrying a requested id survives, or returns false and the
database is exactly unchanged; in particular with rows {1, 2} and request
[1, 2, 3] it returns false and both rows remain. -/
theorem delete_by_ids_all_or_nothing :
    (∀ (db : List Row) (ids : List Int), ids ≠ [] →
      ((delete_by_ids db ids).ret = true ∧
        ∀ r ∈ db, r.id ∈ ids → r ∉ (delete_by_ids db ids).db) ∨
      ((delete_by_ids db ids).ret = false ∧ (delete_by_ids db ids).db = db)) ∧
    ((delete_by_ids [⟨1, []⟩, ⟨2, []⟩] [1, 2, 3]).ret = false ∧
      (delete_by_ids [⟨1, []⟩, ⟨2, []⟩] [1, 2, 3]).db = [⟨1, []⟩, ⟨2, []⟩]) :=
  ⟨delete_by_ids_cases, by decide⟩

/-- C1, witnessed at the mixed existing/non-existing request of the claim. -/
theorem delete_by_ids_all_or_nothing_witness :
    ((delete_by_ids [⟨1, []⟩, ⟨2, []⟩] [1, 2, 3]).ret = true ∧
      ∀ r ∈ ([⟨1, []⟩, ⟨2, []⟩] : List Row), r.id ∈ ([1, 2, 3] : List Int) →
        r ∉ (delete_by_ids [⟨1, []⟩, ⟨2, []⟩] [1, 2, 3]).db) ∨
    ((delete_by_ids [⟨1, []⟩, ⟨2, []⟩] [1, 2, 3]).ret = false ∧
      (delete_by_ids [⟨1, []⟩, ⟨2, []⟩] [1, 2, 3]).db = [⟨1, []⟩, ⟨2, []⟩]) :=
  delete_by_ids_all_or_nothing.1 [⟨1, []⟩, ⟨2, []⟩] [1, 2, 3] (by decide)

/-- C10: `delete_by_ids` returns true iff the number of distinct requested
ids existing in the database equals the raw length of the request, in which
case the surviving rows are exactly those whose id was not requested; a
duplicated existing id (request [1, 1] against row 1) therefore yields false
with nothing deleted, and the empty request returns true with zero store
queries. -/
theorem delete_by_ids_exact_condition :
    (∀ (db : List Row) (ids : List Int),
      ((delete_by_ids db ids).ret = true ↔
        (ids.filter (fun i => db.any (fun r => r.id = i))).dedup.length
          = ids.length) ∧
      ((delete_by_ids db ids).ret = true →
        (delete_by_ids db ids).db = db.filter (fun r => !ids.contains r.id))) ∧
    (∀ db, delete_by_ids db [] = ⟨db, true, 0⟩) ∧
    ((delete_by_ids [⟨1, []⟩] [1, 1]).ret = false ∧
      (delete_by_ids [⟨1, []⟩] [1, 1]).db = [⟨1, []⟩]) := by
  refine ⟨?_, fun db => rfl, by decide⟩
  intro db ids
  cases hne : ids.isEmpty with
  | true =>
    have : ids = [] := List.isEmpty_iff.1 hne
    subst this
    refine ⟨⟨fun _ => rfl, fun _ => rfl⟩, fun _ => ?_⟩
    simp [delete_by_ids]
  | false =>
    have hf := found_ids_length db ids
    simp only [delete_by_ids, hne, Bool.false_eq_true, if_false, ne_eq]
    by_cases hlen : ((db.filter (fun r => ids.contains r.id)).map Row.id).dedup.length
        = ids.length
    · rw [if_neg (not_not_intro hlen)]
      refine ⟨⟨fun _ => by rw [← hf]; exact hlen, fun _ => rfl⟩, fun _ => rfl⟩
    · rw [if_pos hlen]
      refine ⟨⟨fun habs => absurd habs (by simp), fun habs => ?_⟩,
        fun habs => absurd habs (by simp)⟩
      exact absurd (hf.trans habs) hlen

/-- C10, witnessed at a fully existing request. -/
theorem delete_by_ids_exact_condition_witness :
    ((delete_by_ids [⟨1, []⟩, ⟨2, []⟩] [1, 2]).ret = true ↔
      (([1, 2] : List Int).filter (fun i =>
          ([⟨1, []⟩, ⟨2, []⟩] : List Row).any (fun r => r.id = i))).dedup.length
        = ([1, 2] : List Int).length) ∧
    (delete_by_ids [⟨1, []⟩, ⟨2, []⟩] [1, 2]).db
      = ([⟨1, []⟩, ⟨2, []⟩] : List Row).filter
          (fun r => !([1, 2] : List Int).contains r.id) :=
  ⟨(delete_by_ids_exact_condition.1 [⟨1, []⟩, ⟨2, []⟩] [1, 2]).1,
    (delete_by_ids_exact_condition.1 [⟨1, []⟩, ⟨2, []⟩] [1, 2]).2 (by decide)⟩

/-- C4: `validate_fields` returns normally iff every key of the field set is
a declared, non-private field of the entity class; otherwise it raises
`InvalidFieldException` whose details render exactly the full valid-field
set. -/
theorem validate_fields_correct (E : EntityClass) (F : List String) :
    (validate_fields E F = .ok () ↔ ∀ k ∈ F, k ∈ validFields E) ∧
    ((¬ ∀ k ∈ F, k ∈ validFields E) →
      ∃ m, validate_fields E F = .error (.invalidFieldExc m
          ("Valid fields are: " ++ String.intercalate ", " (sortedValidFields E))) ∧
        (∀ a, a ∈ sortedValidFields E ↔ a ∈ validFields E)) := by
  cases hfind : F.find? (fun k => !memStr k (validFields E)) with
  | none =>
    have hall : ∀ k ∈ F, k ∈ validFields E := by
      intro k hk
      have h := List.find?_eq_none.1 hfind k hk
      simp only [Bool.not_eq_true', Bool.not_eq_false] at h
      exact (memStr_iff _ _).1 h
    constructor
    · simp only [validate_fields, hfind]
      exact iff_of_true trivial hall
    · intro hno
      exact absurd hall hno
  | some k =>
    have hk := List.find?_some hfind
    have hkmem := List.mem_of_find?_eq_some hfind
    have hknot : k ∉ validFields E := by
      intro habs
      rw [(memStr_iff _ _).2 habs] at hk
      simp at hk
    constructor
    · constructor
      · intro h
        simp [validate_fields, hfind] at h
      · intro hall
        exact absurd (hall k hkmem) hknot
    · intro _
      refine ⟨"Field " ++ k ++ " does not exist in the " ++ E.className ++ " model",
        by simp [validate_fields, hfind], ?_⟩
      intro a
      rw [sortedValidFields, mem_insSort, List.mem_dedup]

/-- C4, witnessed at an entity class with one unknown requested key. -/
theorem validate_fields_correct_witness :
    (validate_fields ⟨"Grade", ["id", "grade_name", "_private"]⟩ ["nope"] = .ok () ↔
      ∀ k ∈ ["nope"], k ∈ validFields ⟨"Grade", ["id", "grade_name", "_private"]⟩) ∧
    (∃ m, validate_fields ⟨"Grade", ["id", "grade_name", "_private"]⟩ ["nope"]
        = .error (.invalidFieldExc m
            ("Valid fields are: " ++ String.intercalate ", "
              (sortedValidFields ⟨"Grade", ["id", "grade_name", "_private"]⟩))) ∧
      (∀ a, a ∈ sortedValidFields ⟨"Grade", ["id", "grade_name", "_private"]⟩ ↔
        a ∈ validFields ⟨"Grade", ["id", "grade_name", "_private"]⟩)) :=
  ⟨(validate_fields_correct ⟨"Grade", ["id", "grade_name", "_private"]⟩ ["nope"]).1,
    (validate_fields_correct ⟨"Grade", ["id", "grade_name", "_private"]⟩ ["nope"]).2
      (by decide)⟩

/-- C6: pages below 1 behave exactly as page 1 and sizes below 1 exactly as
size 10; the returned metadata has `total_pages` equal to the ceiling of
`total / per_page` when `total > 0` (characterized by the two bounds) and 1
otherwise, `next_page` present iff the current page is below `total_pages`,
and `previous_page` present iff the current page is above 1. -/
theorem get_pageable_clamp_and_meta (db : List Row) (page size : Int) :
    (page < 1 → get_pageable db page size = get_pageable db 1 size) ∧
    (size < 1 → get_pageable db page size = get_pageable db page 10) ∧
    1 ≤ (pageMeta db page size).per_page ∧
    (0 < (pageMeta db page size).total →
      (pageMeta db page size).total
          ≤ (pageMeta db page size).total_pages * (pageMeta db page size).per_page ∧
      ((pageMeta db page size).total_pages - 1) * (pageMeta db page size).per_page
          < (pageMeta db page size).total) ∧
    ((pageMeta db page size).total ≤ 0 → (pageMeta db page size).total_pages = 1) ∧
    ((pageMeta db page size).next_page.isSome ↔
      (pageMeta db page size).current_page < (pageMeta db page size).total_pages) ∧
    ((pageMeta db page size).previous_page.isSome ↔
      1 < (pageMeta db page size).current_page) := by
  refine ⟨?_, ?_, ?_, ?_, ?_, ?_, ?_⟩
  · intro h
    simp only [get_pageable, if_pos h]
    norm_num
  · intro h
    simp only [get_pageable, if_pos h]
    norm_num
  · simp only [pageMeta, get_pageable]
    split <;> omega
  · intro htot
    simp only [pageMeta, get_pageable] at htot ⊢
    set s1 := if size < 1 then (10 : Int) else size with hs1def
    have hs1 : 1 ≤ s1 := by rw [hs1def]; split <;> omega
    have htot' : (0 : Int) < db.length := htot
    rw [if_pos htot']
    set tp := ((db.length : Int) + s1 - 1) / s1 with htpdef
    have key : s1 * tp + ((db.length : Int) + s1 - 1) % s1
        = (db.length : Int) + s1 - 1 := Int.ediv_add_emod _ _
    have h2 : 0 ≤ ((db.length : Int) + s1 - 1) % s1 := Int.emod_nonneg _ (by omega)
    have h3 : ((db.length : Int) + s1 - 1) % s1 < s1 := Int.emod_lt_of_pos _ (by omega)
    have hexp : (tp - 1) * s1 = tp * s1 - s1 := by ring
    constructor
    · rw [mul_comm]
      linarith
    · rw [hexp, mul_comm]
      linarith
  · intro htot
    simp only [pageMeta, get_pageable] at htot ⊢
    rw [if_neg (by omega)]
  · simp only [pageMeta, get_pageable]
    split <;> simp
  · simp only [pageMeta, get_pageable]
    split <;> simp

/-- C6, witnessed at out-of-range page and size inputs over a three-row
database. -/
theorem get_pageable_clamp_and_meta_witness :
    (get_pageable [⟨1, []⟩, ⟨2, []⟩, ⟨3, []⟩] 0 (-5)
        = get_pageable [⟨1, []⟩, ⟨2, []⟩, ⟨3, []⟩] 1 (-5)) ∧
    (get_pageable [⟨1, []⟩, ⟨2, []⟩, ⟨3, []⟩] 0 (-5)
        = get_pageable [⟨1, []⟩, ⟨2, []⟩, ⟨3, []⟩] 0 10) ∧
    (0 < (pageMeta [⟨1, []⟩, ⟨2, []⟩, ⟨3, []⟩] 0 (-5)).total →
      (pageMeta [⟨1, []⟩, ⟨2, []⟩, ⟨3, []⟩] 0 (-5)).total
          ≤ (pageMeta [⟨1, []⟩, ⟨2, []⟩, ⟨3, []⟩] 0 (-5)).total_pages
              * (pageMeta [⟨1, []⟩, ⟨2, []⟩, ⟨3, []⟩] 0 (-5)).per_page ∧
      ((pageMeta [⟨1, []⟩, ⟨2, []⟩, ⟨3, []⟩] 0 (-5)).total_pages - 1)
              * (pageMeta [⟨1, []⟩, ⟨2, []⟩, ⟨3, []⟩] 0 (-5)).per_page
          < (pageMeta [⟨1, []⟩, ⟨2, []⟩, ⟨3, []⟩] 0 (-5)).total) ∧
    ((pageMeta [⟨1, []⟩, ⟨2, []⟩, ⟨3, []⟩] 0 (-5)).next_page.isSome ↔
      (pageMeta [⟨1, []⟩, ⟨2, []⟩, ⟨3, []⟩] 0 (-5)).current_page
        < (pageMeta [⟨1, []⟩, ⟨2, []⟩, ⟨3, []⟩] 0 (-5)).total_pages) :=
  ⟨(get_pageable_clamp_and_meta [⟨1, []⟩, ⟨2, []⟩, ⟨3, []⟩] 0 (-5)).1 (by decide),
    (get_pageable_clamp_and_meta [⟨1, []⟩, ⟨2, []⟩, ⟨3, []⟩] 0 (-5)).2.1 (by decide),
    (get_pageable_clamp_and_meta [⟨1, []⟩, ⟨2, []⟩, ⟨3, []⟩] 0 (-5)).2.2.2.1,
    (get_pageable_clamp_and_meta [⟨1, []⟩, ⟨2, []⟩, ⟨3, []⟩] 0 (-5)).2.2.2.2.2.1⟩
